import Mathlib

/-!
Verification of the Rokesuma-Scraping repository's extraction pipeline.

Shallow embedding of the pure/structural parts of `scraper.py`, `utils.py`
and `selectors.py`: record deduplication, selector-fallback text resolution,
multi-strategy coordinate resolution, URL coordinate parsing, haversine
distance, and the category/marker collection loops with the run-wide item
cap.  Browser effects (queries, clicks, JS evaluation) are modelled as
explicit inputs describing the outcome the page would produce; machine
floats are modelled as `ℚ` where the code only parses/compares values and
as `ℝ` where it does trigonometry.
-/

namespace Rokesuma

/-! ### Records

`parse_detail_panel` builds a dict with keys 店舗名 / 電話番号 / 住所 /
営業時間 (strings), plus coordinates and distances (modelled separately).
Only the string fields participate in deduplication; `phone`/`hours` are
carried to show that deduplication ignores fields other than name+address. -/

structure Record where
  name : String
  phone : String
  address : String
  hours : String
deriving DecidableEq

/-! ### Module-level names (import model for `from utils import ...`)

`utils.py`'s top-level bindings, in source order: the `__future__` import
binds `annotations`; then the imported modules `re`, `math`, `urllib`; the
typing names; the two module-level regex constants; and the six function
definitions.  `scraper.py` line 42-48 executes
`from utils import extract_phone, extract_address, extract_hours,
haversine_distance, normalize_key`; this import statement succeeds iff every
requested name is a top-level binding of `utils`. -/

def utilsModuleNames : List String :=
  ["annotations", "re", "math", "urllib",
   "Iterable", "List", "Dict", "Optional", "Tuple", "Any",
   "_PHONE_RE", "_POSTCODE_RE",
   "extract_phone", "extract_address", "extract_hours",
   "parse_coords_from_url", "haversine_distance", "unique_by_name_address"]

def scraperUtilsImports : List String :=
  ["extract_phone", "extract_address", "extract_hours",
   "haversine_distance", "normalize_key"]

/-- Whether the `from utils import ...` statement at the top of `scraper.py`
can succeed: every imported name must be bound at top level in `utils.py`.
If any name is missing Python raises `ImportError` while loading the module,
so no definition of `scraper.py` (in particular `scrape_locations`) ever
becomes available to an importer. -/
def scraperImportOk : Bool :=
  scraperUtilsImports.all (fun n => utilsModuleNames.contains n)

/-! ### Key normalisation and deduplication

`scrape_locations` (lines 490-496) deduplicates the final DataFrame:
`_key` is `店舗名` (name) concatenated with `住所` (address), `_key_norm`
is `normalize_key(_key)`, and `drop_duplicates(subset="_key_norm")` keeps
the first row of each distinct normalized key, preserving row order. -/

/-- Modelled from the spec: `normalize_key` is imported by `scraper.py` but
missing from `utils.py` (and from the whole repository), so its body is
taken from the spec's words: "normalized concatenation of name and address
(Unicode width-folded, lower-cased, whitespace-trimmed)".  Width folding
maps the fullwidth ASCII block U+FF01–U+FF5E onto U+0021–U+007E and the
ideographic space U+3000 onto the ASCII space. -/
def widthFold (c : Char) : Char :=
  if 0xFF01 ≤ c.toNat ∧ c.toNat ≤ 0xFF5E then Char.ofNat (c.toNat - 0xFEE0)
  else if c.toNat = 0x3000 then ' '
  else c

/-- Drop whitespace characters from both ends of a character list. -/
def trimChars (l : List Char) : List Char :=
  ((l.dropWhile Char.isWhitespace).reverse.dropWhile Char.isWhitespace).reverse

/-- Python `str.strip()` with no argument: remove leading and trailing
whitespace. -/
def pyStrip (s : String) : String :=
  ⟨trimChars s.data⟩

/-- Modelled from the spec: the missing `utils.normalize_key` — width-fold,
lower-case, then trim surrounding whitespace. -/
def normalize_key (s : String) : String :=
  ⟨trimChars ((s.data.map widthFold).map Char.toLower)⟩

/-- The deduplication key of one record: `normalize_key` applied to the
concatenation of name and address, exactly as `_key_norm` is built in
`scrape_locations`. -/
def recordKey (r : Record) : String :=
  normalize_key (r.name ++ r.address)

/-- The pandas call `drop_duplicates` on column `_key_norm` with the
default `keep` of `first`: walk the rows in order, keep a row iff its key
was not seen before. -/
def dedupGo (seen : List String) : List Record → List Record
  | [] => []
  | r :: rs =>
    if recordKey r ∈ seen then dedupGo seen rs
    else r :: dedupGo (recordKey r :: seen) rs

/-- The final deduplication pass of `scrape_locations`. -/
def dedupRecords (rows : List Record) : List Record :=
  dedupGo [] rows

/-! Helper lemmas about deduplication. -/

theorem dedupGo_sublist (seen : List String) (rows : List Record) :
    (dedupGo seen rows).Sublist rows := by
  induction rows generalizing seen with
  | nil => simp [dedupGo]
  | cons r rs ih =>
    simp only [dedupGo]
    split
    · exact (ih seen).cons r
    · exact (ih (recordKey r :: seen)).cons₂ r

theorem mem_dedupGo {seen : List String} {rows : List Record} {r : Record}
    (h : r ∈ dedupGo seen rows) : r ∈ rows ∧ recordKey r ∉ seen := by
  induction rows generalizing seen with
  | nil => simp [dedupGo] at h
  | cons x xs ih =>
    by_cases hc : recordKey x ∈ seen
    · rw [dedupGo, if_pos hc] at h
      rcases ih h with ⟨h1, h2⟩
      exact ⟨List.mem_cons_of_mem _ h1, h2⟩
    · rw [dedupGo, if_neg hc] at h
      rcases List.mem_cons.1 h with h | h
      · subst h
        exact ⟨List.mem_cons_self _ _, hc⟩
      · rcases ih h with ⟨h1, h2⟩
        refine ⟨List.mem_cons_of_mem _ h1, fun hmem => h2 ?_⟩
        exact List.mem_cons_of_mem _ hmem

theorem dedupGo_keys_nodup (seen : List String) (rows : List Record) :
    ((dedupGo seen rows).map recordKey).Nodup := by
  induction rows generalizing seen with
  | nil => simp [dedupGo]
  | cons r rs ih =>
    by_cases hc : recordKey r ∈ seen
    · rw [dedupGo, if_pos hc]
      exact ih seen
    · rw [dedupGo, if_neg hc]
      refine List.nodup_cons.2 ⟨?_, ih (recordKey r :: seen)⟩
      intro hmem
      rcases List.mem_map.1 hmem with ⟨r', hr', hk⟩
      exact (mem_dedupGo hr').2 (by simp [hk])

theorem dedupGo_first_seen {seen : List String} {rows : List Record}
    {r : Record} (h : r ∈ dedupGo seen rows) :
    rows.find? (fun x => recordKey x == recordKey r) = some r := by
  induction rows generalizing seen with
  | nil => simp [dedupGo] at h
  | cons x xs ih =>
    by_cases hc : recordKey x ∈ seen
    · rw [dedupGo, if_pos hc] at h
      have hne : recordKey x ≠ recordKey r := by
        intro he
        exact (mem_dedupGo h).2 (he ▸ hc)
      rw [List.find?_cons_of_neg _ (by simpa using hne)]
      exact ih h
    · rw [dedupGo, if_neg hc] at h
      rcases List.mem_cons.1 h with h | h
      · subst h
        rw [List.find?_cons_of_pos _ (by simp)]
      · have h2 := (mem_dedupGo h).2
        have hne : recordKey x ≠ recordKey r := by
          intro he
          exact h2 (by simp [he])
        rw [List.find?_cons_of_neg _ (by simpa using hne)]
        exact ih h

/-! ### `safe_get_text` (scraper.py lines 73-105)

A page is modelled by the outcome each selector query would produce:
`raise` (any exception inside the per-selector `try` body, from
`query_selector` or `inner_text`), `noElem` (`query_selector` returned
`None`), or `elem t` (an element whose `inner_text()` is `t`). -/

inductive QueryResult where
  | raise : QueryResult
  | noElem : QueryResult
  | elem : String → QueryResult
deriving DecidableEq

/-- The loop body's verdict on one candidate selector: `some t` iff the
query yields an element whose stripped text `t` is non-empty; a raised
exception, an absent element, or empty stripped text all yield `none`
(the loop continues). -/
def candidateText (q : QueryResult) : Option String :=
  match q with
  | .elem t => if pyStrip t = "" then none else some (pyStrip t)
  | _ => none

/-- `safe_get_text`: try the selectors in order, return the first non-empty
stripped text, `None` when every candidate fails. -/
def safe_get_text (page : String → QueryResult) : List String → Option String
  | [] => none
  | s :: rest =>
    match candidateText (page s) with
    | some t => some t
    | none => safe_get_text page rest

/-! ### Python `float()` on numeric literal strings

Used for `float(data_lat)`, `float(match.group(1))`, etc.  Machine floats
are modelled as exact rationals; the model covers finite decimal literals
with optional surrounding whitespace, sign, fractional part and exponent
(`"1.5"`, `"-2"`, `"1."`, `".5"`, `"1e-3"`), returning `none` where
`float()` raises `ValueError` (e.g. `"-"`, `"."`, `"1.2.3"`, `""`).
Non-finite literals (`"nan"`, `"inf"`) and digit-group underscores lie
outside the rational value model and are not represented. -/

def digitsVal (l : List Char) : ℕ :=
  l.foldl (fun a c => 10 * a + (c.toNat - '0'.toNat)) 0

/-- The rational value of a float literal with sign `neg`, integer digits
`ip`, fractional digits `fp` and decimal exponent `exp`:
`±(ip.fp) * 10 ^ exp`. -/
def floatVal (neg : Bool) (ip fp : List Char) (exp : ℤ) : ℚ :=
  let n : ℤ := (digitsVal (ip ++ fp) : ℤ)
  let n : ℤ := if neg then -n else n
  if 0 ≤ exp then mkRat (n * (10 : ℤ) ^ exp.toNat) (10 ^ fp.length)
  else mkRat n (10 ^ fp.length * 10 ^ (-exp).toNat)

/-- Parse the optional exponent suffix after the mantissa; the whole
remaining input must be consumed. -/
def parseExpPart (neg : Bool) (ip fp : List Char) : List Char → Option ℚ
  | [] => some (floatVal neg ip fp 0)
  | c :: rest =>
    if c = 'e' ∨ c = 'E' then
      match rest with
      | '-' :: ds => if ds ≠ [] ∧ ds.all Char.isDigit
                     then some (floatVal neg ip fp (-(digitsVal ds : ℤ)))
                     else none
      | '+' :: ds => if ds ≠ [] ∧ ds.all Char.isDigit
                     then some (floatVal neg ip fp (digitsVal ds : ℤ))
                     else none
      | ds => if ds ≠ [] ∧ ds.all Char.isDigit
              then some (floatVal neg ip fp (digitsVal ds : ℤ))
              else none
    else none

/-- Parse an unsigned float literal: digits, optional `.digits`, optional
exponent; at least one digit must appear around the dot. -/
def parseUnsignedFloat (neg : Bool) (cs : List Char) : Option ℚ :=
  let ip := cs.takeWhile Char.isDigit
  let r1 := cs.dropWhile Char.isDigit
  match r1 with
  | '.' :: r2 =>
    let fp := r2.takeWhile Char.isDigit
    let r3 := r2.dropWhile Char.isDigit
    if ip = [] ∧ fp = [] then none
    else parseExpPart neg ip fp r3
  | _ => if ip = [] then none else parseExpPart neg ip [] r1

/-- Python `float(s)` on a string, as an exact rational. -/
def pyFloat? (s : String) : Option ℚ :=
  match (pyStrip s).data with
  | '-' :: rest => parseUnsignedFloat true rest
  | '+' :: rest => parseUnsignedFloat false rest
  | cs => parseUnsignedFloat false cs

/-! ### The URL coordinate regex of `parse_detail_panel` (lines 202-209)

`re.search(r"@([-\d\.]+),([-\d\.]+)", url)` on the raw page URL: scan left
to right for an `@` followed by a non-empty run of `[-0-9.]`, a comma, and
another non-empty run.  Both groups are greedy-maximal runs; because the
character class excludes `,`, the greedy match coincides with the regex
engine's backtracking search. -/

def classChar (c : Char) : Bool :=
  c == '-' || c.isDigit || c == '.'

/-- Maximal prefix run of `[-0-9.]` characters and the remainder. -/
def takeRun : List Char → List Char × List Char
  | [] => ([], [])
  | c :: rest =>
    if classChar c then
      let p := takeRun rest
      (c :: p.1, p.2)
    else ([], c :: rest)

/-- Try to match `([-\d\.]+),([-\d\.]+)` at the position right after an
`@`. -/
def pairMatch (cs : List Char) : Option (List Char × List Char) :=
  let p1 := takeRun cs
  if p1.1 = [] then none
  else
    match p1.2 with
    | ',' :: r2 =>
      let p2 := takeRun r2
      if p2.1 = [] then none else some (p1.1, p2.1)
    | _ => none

/-- `re.search` for the `@`-pair pattern: first position whose `@` is
followed by a full pair wins. -/
def atSearch : List Char → Option (List Char × List Char)
  | [] => none
  | c :: rest =>
    if c = '@' then
      match pairMatch rest with
      | some p => some p
      | none => atSearch rest
    else atSearch rest

/-- The URL step of coordinate resolution in `parse_detail_panel` and
`extract_origin_coords`: the raw (not percent-decoded) URL is searched for
the `@`-pair pattern only; the two matched groups are returned as strings. -/
def scraperUrlMatch (url : String) : Option (String × String) :=
  (atSearch url.data).map (fun p => (⟨p.1⟩, ⟨p.2⟩))

/-! ### Coordinate resolution (`parse_detail_panel` lines 181-221)

Strategy 1 loops over three attribute selectors; for each, the page either
produces no element / raises (`none`) or yields an element whose
`data-lat` / `data-lng` attributes are `Option String` (`get_attribute`
returns `None` for a missing attribute).  Strategy 2 applies the `@`-pair
regex to the page URL and converts the groups with an *unguarded* `float()`
— a non-numeric group raises out of `parse_detail_panel` (modelled with
`Except`).  Strategy 3 evaluates the in-page map centre; a raised JS
evaluation is caught and yields `(None, None)`. -/

structure CoordPage where
  /-- Per attribute-selector outcome: `none` = query raised or no element;
  `some (dlat, dlng)` = element found, with its two data attributes. -/
  attrs : List (Option (Option String × Option String))
  url : String
  evalRaises : Bool
  centerLat : Option ℚ
  centerLng : Option ℚ

/-- Strategy 1: walk the attribute selectors, carrying the pair of
partially assigned coordinates.  The truthiness test `if data_lat and
data_lng` skips absent *and empty-string* attributes.  `lat` is assigned
before `lng`, so a pair whose first attribute parses but whose second does
not leaves `lat` assigned when the per-selector exception is swallowed. -/
def strategy1 : List (Option (Option String × Option String)) →
    Option ℚ × Option ℚ → Option ℚ × Option ℚ
  | [], st => st
  | none :: rest, st => strategy1 rest st
  | some (dlat, dlng) :: rest, st =>
    match dlat, dlng with
    | some s1, some s2 =>
      if s1.isEmpty || s2.isEmpty then strategy1 rest st
      else
        match pyFloat? s1 with
        | none => strategy1 rest st
        | some la =>
          match pyFloat? s2 with
          | none => strategy1 rest (some la, st.2)
          | some ln => (some la, some ln)
    | _, _ => strategy1 rest st

/-- Strategy 2 (lines 202-209): `re.search` the raw URL for the `@`-pair;
on a match both groups go through a bare `float()`, whose `ValueError`
propagates out of `parse_detail_panel` (the `Except.error` case); with no
match the pair from strategy 1 is left as it was. -/
def strategy2 (st : Option ℚ × Option ℚ) (url : String) :
    Except Unit (Option ℚ × Option ℚ) :=
  match scraperUrlMatch url with
  | some (g1, g2) =>
    match pyFloat? g1, pyFloat? g2 with
    | some la, some ln => .ok (some la, some ln)
    | _, _ => .error ()
  | none => .ok st

/-- Strategy 3 (lines 211-221): evaluate the in-page map centre; both
coordinates are overwritten with the evaluation results; a raised
evaluation is caught and leaves both `None`. -/
def strategy3 (p : CoordPage) : Option ℚ × Option ℚ :=
  if p.evalRaises then (none, none) else (p.centerLat, p.centerLng)

/-- Full coordinate resolution with call instrumentation: returns the final
`(lat, lng)` pair plus flags recording whether strategy 2 (URL regex) and
strategy 3 (map-centre evaluation) were invoked; each later strategy runs
only under the code's `if lat is None or lng is None` guard. -/
def resolveCoords (p : CoordPage) :
    Except Unit ((Option ℚ × Option ℚ) × Bool × Bool) :=
  let st1 := strategy1 p.attrs (none, none)
  if st1.1.isSome ∧ st1.2.isSome then .ok (st1, false, false)
  else
    match strategy2 st1 p.url with
    | .error _ => .error ()
    | .ok st2 =>
      if st2.1.isSome ∧ st2.2.isSome then .ok (st2, true, false)
      else .ok (strategy3 p, true, true)

/-! ### Haversine distance (`utils.haversine_distance`, lines 100-119)

Trigonometric code, modelled over `ℝ`.  The `try/except` around the body
can only fire on NaN inputs, which do not exist in the real-number model,
so the happy path is the whole function. -/

open Real in
/-- Python `math.atan2(y, x)`. -/
noncomputable def atan2 (y x : ℝ) : ℝ :=
  if 0 < x then arctan (y / x)
  else if x < 0 then
    (if 0 ≤ y then arctan (y / x) + π else arctan (y / x) - π)
  else
    (if 0 < y then π / 2 else if y < 0 then -(π / 2) else 0)

/-- Python `math.radians(x)` = `x * (pi / 180)`. -/
noncomputable def radians (x : ℝ) : ℝ :=
  x * (Real.pi / 180)

/-- `utils.haversine_distance`: great-circle distance between two
latitude/longitude pairs, returned as (metres, kilometres). -/
noncomputable def haversine_distance (lat1 lon1 lat2 lon2 : ℝ) : ℝ × ℝ :=
  let phi1 := radians lat1
  let phi2 := radians lat2
  let dphi := phi2 - phi1
  let dlambda := radians (lon2 - lon1)
  let a := Real.sin (dphi / 2) ^ 2 +
    Real.cos phi1 * Real.cos phi2 * Real.sin (dlambda / 2) ^ 2
  let c := 2 * atan2 (Real.sqrt a) (Real.sqrt (1 - a))
  let distance_m := 6371000.0 * c
  (distance_m, distance_m / 1000.0)

/-- The distance step of `parse_detail_panel` (lines 226-233): when the
point coordinates and both origin components are all present, store the
two `haversine_distance` outputs as-is; otherwise store NaN (absence) in
both distance fields. -/
noncomputable def distanceFields (origin_lat origin_lng lat lng : Option ℝ) :
    Option ℝ × Option ℝ :=
  match lat, lng, origin_lat, origin_lng with
  | some la, some ln, some ola, some oln =>
    (some (haversine_distance ola oln la ln).1,
     some (haversine_distance ola oln la ln).2)
  | _, _, _, _ => (none, none)

/-- Modelled from the spec: "rounds (metres to 2 decimals, kilometres
to 3)" — rounding a real to `k` decimal places.  No rounding exists in the
source; this claim-side definition is only compared against the stored
values. -/
noncomputable def specRound (k : ℕ) (x : ℝ) : ℝ :=
  ((round (x * (10 : ℝ) ^ k) : ℤ) : ℝ) / (10 : ℝ) ^ k

/-! ### Category and marker iteration (`scrape_locations` lines 380-476)

One category's browser state is abstracted by the outcome of its
filter-apply step and by the marker list present at enumeration time: entry
`none` = the click on that marker failed or `parse_detail_panel` raised
(the marker is skipped), `some r` = a record was extracted.  `max_items`
is the run-wide cap; Python's `if max_items and ...` treats `0` (and
absence) as "no cap", modelled by `maxI = 0`. -/

structure CatInput where
  name : String
  /-- Some category-button selector in the panel finds an element and its
  click does not raise. -/
  panelClickOk : Bool
  /-- `query_selector("input[type=text]")` returns an element. -/
  searchBoxFound : Bool
  /-- The search-bar interaction raises. -/
  searchRaises : Bool
  /-- Markers present when the marker loop runs, with per-marker outcome. -/
  markers : List (Option Record)
deriving DecidableEq

/-- Whether the filter-apply step of one category failed entirely.  The
special category 病院・診療所 is always routed through the search bar; any
other category first tries the panel buttons, then falls back to the
search bar. -/
def filterApplyFailed (c : CatInput) : Bool :=
  if c.name = "病院・診療所" then
    !(c.searchBoxFound && !c.searchRaises)
  else
    !(c.panelClickOk || (c.searchBoxFound && !c.searchRaises))

/-- The marker loop of one category (`for idx in range(marker_count)`):
before each marker, `if max_items and len(data_records) >= max_items:
break`; a `none` marker is skipped, a `some r` marker appends `r`. -/
def runMarkers (maxI : ℕ) : List (Option Record) → List Record → List Record
  | [], acc => acc
  | m :: ms, acc =>
    if maxI ≠ 0 ∧ maxI ≤ acc.length then acc
    else
      match m with
      | none => runMarkers maxI ms acc
      | some r => runMarkers maxI ms (acc ++ [r])

/-- The category loop: each category runs its filter-apply step (which
does not gate the marker loop) and then its marker loop; after a category,
`if max_items and len(data_records) >= max_items: break` stops before the
next category is entered. -/
def runCats (maxI : ℕ) : List CatInput → List Record → List Record
  | [], acc => acc
  | c :: cs, acc =>
    let acc2 := runMarkers maxI c.markers acc
    if maxI ≠ 0 ∧ maxI ≤ acc2.length then acc2
    else runCats maxI cs acc2

/-! ### Helper lemmas for the collection loops -/

theorem safe_get_text_all_none (page : String → QueryResult)
    (sels : List String) (h : ∀ s ∈ sels, candidateText (page s) = none) :
    safe_get_text page sels = none := by
  induction sels with
  | nil => rfl
  | cons s rest ih =>
    have hs : candidateText (page s) = none := h s (List.mem_cons_self _ _)
    simp only [safe_get_text, hs]
    exact ih (fun x hx => h x (List.mem_cons_of_mem _ hx))

theorem safe_get_text_append_none (page : String → QueryResult)
    (pre rest : List String)
    (h : ∀ s ∈ pre, candidateText (page s) = none) :
    safe_get_text page (pre ++ rest) = safe_get_text page rest := by
  induction pre with
  | nil => rfl
  | cons s pre' ih =>
    have hs : candidateText (page s) = none := h s (List.mem_cons_self _ _)
    simp only [List.cons_append, safe_get_text, hs]
    exact ih (fun x hx => h x (List.mem_cons_of_mem _ hx))

theorem runMarkers_zero (ms : List (Option Record)) (acc : List Record) :
    runMarkers 0 ms acc = acc ++ ms.filterMap (fun x => x) := by
  induction ms generalizing acc with
  | nil => simp [runMarkers]
  | cons m ms ih =>
    cases m with
    | none => simp [runMarkers, ih]
    | some r => simp [runMarkers, ih]

theorem runCats_zero (cs : List CatInput) (acc : List Record) :
    runCats 0 cs acc =
      acc ++ (cs.map (fun c => c.markers.filterMap (fun x => x))).flatten := by
  induction cs generalizing acc with
  | nil => simp [runCats]
  | cons c cs ih => simp [runCats, runMarkers_zero, ih]

theorem runMarkers_stop {maxI : ℕ} (h0 : maxI ≠ 0)
    (ms : List (Option Record)) {acc : List Record}
    (h : maxI ≤ acc.length) : runMarkers maxI ms acc = acc := by
  cases ms with
  | nil => rfl
  | cons m ms => simp [runMarkers, h0, h]

theorem runMarkers_length_le {maxI : ℕ} (h0 : maxI ≠ 0)
    (ms : List (Option Record)) {acc : List Record}
    (h : acc.length ≤ maxI) : (runMarkers maxI ms acc).length ≤ maxI := by
  induction ms generalizing acc with
  | nil => simpa [runMarkers] using h
  | cons m ms ih =>
    by_cases hstop : maxI ≤ acc.length
    · simp only [runMarkers]
      rw [if_pos ⟨h0, hstop⟩]
      exact h
    · simp only [runMarkers]
      rw [if_neg (by simp [hstop])]
      have hlt : acc.length < maxI := Nat.lt_of_not_le hstop
      cases m with
      | none => exact ih h
      | some r =>
        refine ih ?_
        simpa using Nat.succ_le_of_lt hlt

theorem runCats_stop {maxI : ℕ} (h0 : maxI ≠ 0)
    (cs : List CatInput) {acc : List Record}
    (h : maxI ≤ acc.length) : runCats maxI cs acc = acc := by
  cases cs with
  | nil => rfl
  | cons c cs =>
    rw [runCats]
    rw [runMarkers_stop h0 c.markers h]
    simp [h0, h]

theorem runCats_length_le {maxI : ℕ} (h0 : maxI ≠ 0)
    (cs : List CatInput) {acc : List Record}
    (h : acc.length ≤ maxI) : (runCats maxI cs acc).length ≤ maxI := by
  induction cs generalizing acc with
  | nil => simpa [runCats] using h
  | cons c cs ih =>
    rw [runCats]
    have h2 : (runMarkers maxI c.markers acc).length ≤ maxI :=
      runMarkers_length_le h0 c.markers h
    by_cases hstop : maxI ≤ (runMarkers maxI c.markers acc).length
    · rw [if_pos ⟨h0, hstop⟩]
      exact h2
    · rw [if_neg (by simp [hstop])]
      exact ih h2

/-! ### Claim theorems -/

/-- C1: the final deduplication of `scrape_locations` keys each record by
the normalized (width-folded, lower-cased, trimmed) concatenation of name
and address; at most one record survives per distinct normalized key, the
survivors appear in collection order (category-then-marker order of the
input list), and each survivor is the first record of the input carrying
its key. -/
theorem C1_dedup_normalized_first_seen (rows : List Record) :
    ((dedupRecords rows).map recordKey).Nodup ∧
    (dedupRecords rows).Sublist rows ∧
    ∀ r ∈ dedupRecords rows,
      rows.find? (fun x => recordKey x == recordKey r) = some r := by
  refine ⟨dedupGo_keys_nodup [] rows, dedupGo_sublist [] rows, ?_⟩
  intro r hr
  exact dedupGo_first_seen hr

/-- Witness for C1 at the spec's own example: two records named "A" at
address "X" (differing in phone) and one "B" at "Y"; the first "A" and the
"B" survive, and the surviving "B" is the first (only) record with its
key. -/
theorem C1_dedup_normalized_first_seen_witness :
    dedupRecords
        [⟨"A", "p1", "X", ""⟩, ⟨"A", "p2", "X", ""⟩, ⟨"B", "p3", "Y", ""⟩] =
      [⟨"A", "p1", "X", ""⟩, ⟨"B", "p3", "Y", ""⟩] ∧
    List.find?
        (fun x => recordKey x == recordKey (⟨"B", "p3", "Y", ""⟩ : Record))
        [⟨"A", "p1", "X", ""⟩, ⟨"A", "p2", "X", ""⟩, ⟨"B", "p3", "Y", ""⟩] =
      some ⟨"B", "p3", "Y", ""⟩ :=
  ⟨by decide,
   (C1_dedup_normalized_first_seen
       [⟨"A", "p1", "X", ""⟩, ⟨"A", "p2", "X", ""⟩, ⟨"B", "p3", "Y", ""⟩]).2.2
     ⟨"B", "p3", "Y", ""⟩ (by decide)⟩

/-- C2: `scraper.py` imports `normalize_key` from `utils`, but `utils.py`
binds no such top-level name, so the `from utils import ...` statement —
and with it the loading of the scraper module and every access to
`scrape_locations` through an import — fails with `ImportError`. -/
theorem C2_import_normalize_key_fails :
    scraperImportOk = false ∧
    "normalize_key" ∈ scraperUtilsImports ∧
    "normalize_key" ∉ utilsModuleNames := by
  decide

/-- C3: with a positive run-wide `max_items`, the records collected before
deduplication never exceed `max_items`; once the cap is reached, no later
category (nor marker) contributes anything; `max_items = 0` (or absent)
collects every extracted record of every category, unlimited. -/
theorem C3_run_wide_cap :
    (∀ (maxI : ℕ) (cs : List CatInput), 0 < maxI →
        (runCats maxI cs []).length ≤ maxI) ∧
    (∀ (maxI : ℕ) (cs : List CatInput) (acc : List Record), 0 < maxI →
        maxI ≤ acc.length → runCats maxI cs acc = acc) ∧
    (∀ cs : List CatInput, runCats 0 cs [] =
        (cs.map (fun c => c.markers.filterMap (fun x => x))).flatten) := by
  refine ⟨fun maxI cs h => ?_, fun maxI cs acc h hacc => ?_, fun cs => ?_⟩
  · exact runCats_length_le (Nat.pos_iff_ne_zero.1 h) cs (Nat.zero_le _)
  · exact runCats_stop (Nat.pos_iff_ne_zero.1 h) cs hacc
  · simpa using runCats_zero cs []

/-- Witness for C3 at the spec's example: cap 3, two categories with five
markers each — exactly 3 records survive the cap (so at most 3). -/
theorem C3_run_wide_cap_witness :
    0 < 3 ∧
    (runCats 3
        [⟨"cat1", true, true, false, List.replicate 5 (some ⟨"A", "", "X", ""⟩)⟩,
         ⟨"cat2", true, true, false, List.replicate 5 (some ⟨"B", "", "Y", ""⟩)⟩]
        []).length ≤ 3 :=
  ⟨by decide,
   C3_run_wide_cap.1 3
     [⟨"cat1", true, true, false, List.replicate 5 (some ⟨"A", "", "X", ""⟩)⟩,
      ⟨"cat2", true, true, false, List.replicate 5 (some ⟨"B", "", "Y", ""⟩)⟩]
     (by decide)⟩

/-- C4: `safe_get_text` returns the stripped text of the first selector
whose query yields an element with non-empty stripped text; the selectors
after that first match are never consulted (the conclusion holds for every
behaviour of `page` on `post`); raising queries, missing elements and
empty-text elements are skipped; when every candidate fails the result is
`none`, not an exception. -/
theorem C4_safe_get_text_first_nonempty (page : String → QueryResult)
    (pre : List String) (sel : String) (post : List String) (t : String) :
    ((∀ s ∈ pre, candidateText (page s) = none) →
      candidateText (page sel) = some t →
      safe_get_text page (pre ++ sel :: post) = some t) ∧
    ((∀ s ∈ pre, candidateText (page s) = none) →
      safe_get_text page pre = none) := by
  constructor
  · intro hpre hsel
    rw [safe_get_text_append_none page pre _ hpre]
    simp [safe_get_text, hsel]
  · intro hpre
    exact safe_get_text_all_none page pre hpre

/-- Witness for C4: a chain whose first entry raises, second entry yields
`" Name "`, third entry would raise if consulted — the result is the
stripped `"Name"`. -/
theorem C4_safe_get_text_first_nonempty_witness :
    safe_get_text
        (fun s => if s = "h2" then QueryResult.elem " Name "
                  else QueryResult.raise)
        ["h1", "h2", "h3"] = some "Name" :=
  (C4_safe_get_text_first_nonempty
      (fun s => if s = "h2" then QueryResult.elem " Name "
                else QueryResult.raise)
      ["h1"] "h2" ["h3"] "Name").1
    (by decide) (by decide)

/-! ### Helper lemmas for the URL regex model -/

theorem takeRun_all_class {g t : List Char}
    (hg : ∀ c ∈ g, classChar c = true)
    (ht : ∀ c ∈ t.head?, classChar c = false) :
    takeRun (g ++ t) = (g, t) := by
  induction g with
  | nil =>
    cases t with
    | nil => rfl
    | cons c t' =>
      have hc : classChar c = false := ht c rfl
      simp [takeRun, hc]
  | cons c g' ih =>
    have hc : classChar c = true := hg c (List.mem_cons_self _ _)
    have ih' := ih (fun x hx => hg x (List.mem_cons_of_mem _ hx))
    simp [takeRun, hc, ih']

theorem atSearch_skip {pre : List Char} (s : List Char)
    (h : ∀ c ∈ pre, c ≠ '@') :
    atSearch (pre ++ s) = atSearch s := by
  induction pre with
  | nil => rfl
  | cons c pre' ih =>
    have hc : c ≠ '@' := h c (List.mem_cons_self _ _)
    simp only [List.cons_append, atSearch, if_neg hc]
    exact ih (fun x hx => h x (List.mem_cons_of_mem _ hx))

/-! ### C5 and C6 theorems -/

/-- C5: the three coordinate strategies run strictly in order under the
`if lat is None or lng is None` guards: when strategy 1 assigns both
coordinates from the marker `data-lat`/`data-lng` attributes, the result
is exactly that pair and neither the URL regex (strategy 2) nor the
map-centre evaluation (strategy 3) is invoked; strategy 3 is only ever
invoked after strategy 2; and whenever strategy 2 was skipped the result
is strategy 1's pair. -/
theorem C5_strategy1_short_circuits :
    (∀ (p : CoordPage) (la ln : ℚ),
        strategy1 p.attrs (none, none) = (some la, some ln) →
        resolveCoords p = .ok ((some la, some ln), false, false)) ∧
    (∀ (p : CoordPage) (r : Option ℚ × Option ℚ) (s2 s3 : Bool),
        resolveCoords p = .ok (r, s2, s3) →
        (s3 = true → s2 = true) ∧
        (s2 = false → strategy1 p.attrs (none, none) = r)) := by
  constructor
  · intro p la ln h
    simp [resolveCoords, h]
  · intro p r s2 s3 h
    simp only [resolveCoords] at h
    by_cases h1 : (strategy1 p.attrs (none, none)).1.isSome = true ∧
        (strategy1 p.attrs (none, none)).2.isSome = true
    · rw [if_pos h1] at h
      simp only [Except.ok.injEq, Prod.mk.injEq] at h
      obtain ⟨hr, hs2, hs3⟩ := h
      subst hr
      subst hs2
      subst hs3
      exact ⟨fun hc => absurd hc (by decide), fun _ => rfl⟩
    · rw [if_neg h1] at h
      rcases h2 : strategy2 (strategy1 p.attrs (none, none)) p.url
          with e | st2 <;> rw [h2] at h <;> dsimp only at h
      · cases h
      · by_cases h3 : st2.1.isSome = true ∧ st2.2.isSome = true
        · rw [if_pos h3] at h
          simp only [Except.ok.injEq, Prod.mk.injEq] at h
          obtain ⟨hr, hs2, hs3⟩ := h
          subst hs2
          subst hs3
          exact ⟨fun _ => rfl, fun hf => absurd hf (by decide)⟩
        · rw [if_neg h3] at h
          simp only [Except.ok.injEq, Prod.mk.injEq] at h
          obtain ⟨hr, hs2, hs3⟩ := h
          subst hs2
          subst hs3
          exact ⟨fun _ => rfl, fun hf => absurd hf (by decide)⟩

/-- Witness for C5: one marker element carrying `data-lat="33.5"` and
`data-lng="130.4"`; strategy 1 resolves the pair and the url/map-centre
strategies stay uninvoked. -/
theorem C5_strategy1_short_circuits_witness :
    strategy1 [some (some "33.5", some "130.4")] (none, none) =
      (some (mkRat 335 10), some (mkRat 1304 10)) ∧
    resolveCoords
        ⟨[some (some "33.5", some "130.4")],
          "https://www.locationsmart.org/map?ll=1,2", false, none, none⟩ =
      .ok ((some (mkRat 335 10), some (mkRat 1304 10)), false, false) :=
  ⟨by decide,
   C5_strategy1_short_circuits.1
     ⟨[some (some "33.5", some "130.4")],
       "https://www.locationsmart.org/map?ll=1,2", false, none, none⟩
     (mkRat 335 10) (mkRat 1304 10) (by decide)⟩

/-- C6 counterexample: the claim says the URL coordinate step percent-decodes
and then tries `@lat,lng` followed by `ll=`/`q=`, accepting the first full
numeric pair; at the URL below the pair `33.59,130.42` sits in an `ll=`
query parameter (both components parse as floats), yet the code's URL step
— `re.search` of the `@`-pattern on the raw URL — matches nothing, so the
claimed pair is not produced. -/
theorem C6_url_step_counterexample :
    scraperUrlMatch "https://www.locationsmart.org/map?ll=33.59,130.42" =
      none ∧
    "https://www.locationsmart.org/map?ll=33.59,130.42" =
      "https://www.locationsmart.org/map?" ++ "ll=" ++ "33.59,130.42" ∧
    pyFloat? "33.59" = some (mkRat 3359 100) ∧
    pyFloat? "130.42" = some (mkRat 13042 100) := by
  refine ⟨by decide, by decide, by decide, by decide⟩

/-- C6 amended: the URL coordinate step of `parse_detail_panel` (and of
`extract_origin_coords`) applies only the regex `@([-\d.]+),([-\d.]+)` to
the raw, non-percent-decoded URL: a URL without a literal `@` yields no
match (so `ll=`/`q=` pairs and percent-encoded `@` are never recognised),
and the first `@` followed by two full `[-0-9.]` runs separated by a comma
yields exactly those runs as the match groups.  (The `utils`
helper `parse_coords_from_url` implements the decode-then-`@`-then-`ll=`
order the claim describes, but no code in the repository calls it.) -/
theorem C6_url_step_raw_at_only :
    (∀ url : String, (∀ c ∈ url.data, c ≠ '@') → scraperUrlMatch url = none) ∧
    (∀ pre g1 g2 rest : List Char,
        (∀ c ∈ pre, c ≠ '@') → g1 ≠ [] → g2 ≠ [] →
        (∀ c ∈ g1, classChar c = true) → (∀ c ∈ g2, classChar c = true) →
        (∀ c ∈ rest.head?, classChar c = false) →
        atSearch (pre ++ '@' :: (g1 ++ ',' :: (g2 ++ rest))) =
          some (g1, g2)) := by
  constructor
  · intro url h
    have : atSearch url.data = none := by
      have h2 : atSearch (url.data ++ []) = atSearch [] := atSearch_skip [] h
      simpa using h2
    simp [scraperUrlMatch, this]
  · intro pre g1 g2 rest hpre hg1 hg2 hcl1 hcl2 hrest
    rw [atSearch_skip _ hpre]
    have hcomma : ∀ c ∈ (',' :: (g2 ++ rest)).head?, classChar c = false := by
      intro c hc
      simp only [List.head?_cons, Option.mem_def, Option.some.injEq] at hc
      subst hc
      rfl
    have ht1 : takeRun (g1 ++ ',' :: (g2 ++ rest)) =
        (g1, ',' :: (g2 ++ rest)) := takeRun_all_class hcl1 hcomma
    have ht2 : takeRun (g2 ++ rest) = (g2, rest) :=
      takeRun_all_class hcl2 hrest
    simp only [atSearch, if_pos rfl]
    rw [pairMatch.eq_def]
    rw [ht1]
    simp [hg1, ht2, hg2]

/-- Witness for C6's amended statement: at a URL whose path holds
`@33.59,130.42/`, the raw `@`-regex yields the groups
`("33.59", "130.42")`. -/
theorem C6_url_step_raw_at_only_witness :
    atSearch ("https://maps.example/dir/".data ++ '@' ::
        ("33.59".data ++ ',' :: ("130.42".data ++ "/data".data))) =
      some ("33.59".data, "130.42".data) :=
  C6_url_step_raw_at_only.2 "https://maps.example/dir/".data
    "33.59".data "130.42".data "/data".data
    (by decide) (by decide) (by decide) (by decide) (by decide) (by decide)

/-! ### C8 theorems -/

/-- C8 counterexample: a category whose filter-apply step fails entirely
(no panel button clicks, and the search-bar fallback raises) is *not*
skipped by the code — the marker loop still iterates whatever markers are
currently displayed (e.g. stale markers of the previous category), so the
failed category contributes a record, contradicting "contributes zero
records". -/
theorem C8_failed_filter_counterexample :
    filterApplyFailed
        ⟨"コンビニ", false, false, true, [some ⟨"店", "", "X", ""⟩]⟩ = true ∧
    runCats 0 [⟨"コンビニ", false, false, true, [some ⟨"店", "", "X", ""⟩]⟩] [] =
      [⟨"店", "", "X", ""⟩] ∧
    runCats 0 [⟨"コンビニ", false, false, true, [some ⟨"店", "", "X", ""⟩]⟩] [] ≠
      [] := by
  refine ⟨by decide, by decide, by decide⟩

/-- C8 amended: when a category's filter-apply step fails entirely, the
category is still not fatal — subsequent categories run — but instead of
contributing zero records it proceeds to enumerate the markers present on
the page (typically stale ones from the previous category) and contributes
exactly their extracted records. -/
theorem C8_failed_filter_still_enumerates (c : CatInput) (cs : List CatInput)
    (acc : List Record) (_h : filterApplyFailed c = true) :
    runCats 0 (c :: cs) acc =
      runCats 0 cs (acc ++ c.markers.filterMap (fun x => x)) := by
  simp [runCats, runMarkers_zero]

/-- Witness for C8's amended statement: the failed category contributes its
stale marker's record and the next category is still processed. -/
theorem C8_failed_filter_still_enumerates_witness :
    filterApplyFailed
        ⟨"コンビニ", false, false, true, [some ⟨"店", "", "X", ""⟩]⟩ = true ∧
    runCats 0
        [⟨"コンビニ", false, false, true, [some ⟨"店", "", "X", ""⟩]⟩,
         ⟨"カフェ", true, true, false, [some ⟨"喫茶", "", "Y", ""⟩]⟩] [] =
      runCats 0 [⟨"カフェ", true, true, false, [some ⟨"喫茶", "", "Y", ""⟩]⟩]
        ([] ++ [⟨"店", "", "X", ""⟩]) :=
  ⟨by decide,
   C8_failed_filter_still_enumerates
     ⟨"コンビニ", false, false, true, [some ⟨"店", "", "X", ""⟩]⟩
     [⟨"カフェ", true, true, false, [some ⟨"喫茶", "", "Y", ""⟩]⟩] []
     (by decide)⟩

/-! ### Haversine lemmas (C7, C9, C10) -/

theorem haversine_self (la lo : ℝ) : haversine_distance la lo la lo = (0, 0) := by
  simp [haversine_distance, radians, atan2]

theorem haversine_symm (a1 b1 a2 b2 : ℝ) :
    haversine_distance a1 b1 a2 b2 = haversine_distance a2 b2 a1 b1 := by
  simp only [haversine_distance]
  have hA :
      Real.sin ((radians a2 - radians a1) / 2) ^ 2 +
        Real.cos (radians a1) * Real.cos (radians a2) *
          Real.sin (radians (b2 - b1) / 2) ^ 2 =
      Real.sin ((radians a1 - radians a2) / 2) ^ 2 +
        Real.cos (radians a2) * Real.cos (radians a1) *
          Real.sin (radians (b1 - b2) / 2) ^ 2 := by
    have h1 : radians a2 - radians a1 = -(radians a1 - radians a2) := by ring
    have h2 : radians (b2 - b1) = -(radians (b1 - b2)) := by
      simp only [radians]
      ring
    rw [h1, h2, neg_div, neg_div, Real.sin_neg, Real.sin_neg, neg_sq, neg_sq]
    ring
  rw [hA]

/-- At origin (0,0) and point (0,1) the haversine metres value is exactly
`6371000 * π / 180` — an irrational number, hence distinct from any value
rounded to a finite number of decimals. -/
theorem haversine_unit_metres :
    (haversine_distance 0 0 0 1).1 = 6371000 * (Real.pi / 180) := by
  have hpi := Real.pi_pos
  have hs : Real.sqrt (Real.sin (Real.pi / 180 / 2) ^ 2) =
      Real.sin (Real.pi / 180 / 2) :=
    Real.sqrt_sq (Real.sin_nonneg_of_nonneg_of_le_pi
      (by linarith) (by linarith))
  have hcpos : 0 < Real.cos (Real.pi / 180 / 2) :=
    Real.cos_pos_of_mem_Ioo ⟨by linarith, by linarith⟩
  have hc : Real.sqrt (1 - Real.sin (Real.pi / 180 / 2) ^ 2) =
      Real.cos (Real.pi / 180 / 2) := by
    rw [← Real.cos_sq']
    exact Real.sqrt_sq (le_of_lt hcpos)
  simp only [haversine_distance, radians]
  norm_num
  rw [hs, hc, atan2, if_pos hcpos, ← Real.tan_eq_sin_div_cos,
    Real.arctan_tan (by linarith) (by linarith)]
  ring

theorem haversine_unit_irrational :
    Irrational ((haversine_distance 0 0 0 1).1) := by
  rw [haversine_unit_metres]
  have h : (6371000 : ℝ) * (Real.pi / 180) =
      ((6371000 / 180 : ℚ) : ℝ) * Real.pi := by
    push_cast
    ring
  rw [h]
  exact irrational_pi.rat_mul (by norm_num)

/-! ### C7, C9, C10 theorems -/

/-- C7 counterexample: with origin (0,0) and resolved point (0,1), the
stored metres value is the raw haversine output `6371000 * π / 180`,
which is irrational and therefore differs from the 2-decimal rounding the
claim says is stored (rounding to 3 decimals for kilometres fails
likewise). -/
theorem C7_no_rounding_counterexample :
    (distanceFields (some 0) (some 0) (some 0) (some 1)).1 ≠
      some (specRound 2 ((haversine_distance 0 0 0 1).1)) := by
  have hd : (distanceFields (some 0) (some 0) (some 0) (some 1)).1 =
      some ((haversine_distance 0 0 0 1).1) := rfl
  rw [hd]
  intro h
  have h2 : (haversine_distance 0 0 0 1).1 =
      specRound 2 ((haversine_distance 0 0 0 1).1) := Option.some.inj h
  have hirr := haversine_unit_irrational
  rw [h2] at hirr
  apply hirr
  refine ⟨((round ((haversine_distance 0 0 0 1).1 * (10 : ℝ) ^ 2) : ℤ) : ℚ) /
      (10 : ℚ) ^ 2, ?_⟩
  simp only [specRound]
  push_cast
  ring

/-- C7 amended: for every record with resolved coordinates and a known
origin, the stored distance fields are the *unrounded* haversine outputs —
metres verbatim, kilometres = metres / 1000 — with no rounding applied
anywhere in the pipeline. -/
theorem C7_distances_stored_unrounded (ola oln la ln : ℝ) :
    distanceFields (some ola) (some oln) (some la) (some ln) =
      (some ((haversine_distance ola oln la ln).1),
       some ((haversine_distance ola oln la ln).1 / 1000.0)) :=
  rfl

/-- C9: when both point coordinates are absent, both distance fields are
absent; when either origin component is unresolved, the distance
computation is skipped for every record (both fields absent, never
zero-filled); and with no cap every extracted record is kept by the marker
loop regardless of its field contents — records are never discarded for
missing fields. -/
theorem C9_missing_coords_skip_distance :
    (∀ ola oln la ln : Option ℝ,
      ((la = none ∧ ln = none) →
        distanceFields ola oln la ln = (none, none)) ∧
      ((ola = none ∨ oln = none) →
        distanceFields ola oln la ln = (none, none))) ∧
    (∀ (ms : List (Option Record)) (acc : List Record),
      runMarkers 0 ms acc = acc ++ ms.filterMap (fun x => x)) := by
  constructor
  · intro ola oln la ln
    constructor
    · rintro ⟨rfl, rfl⟩
      cases ola <;> cases oln <;> rfl
    · rintro (rfl | rfl)
      · cases la <;> cases ln <;> cases oln <;> rfl
      · cases la <;> cases ln <;> cases ola <;> rfl
  · exact runMarkers_zero

/-- Witness for C9 at an unresolved origin: the distance fields are both
absent (not zero-filled) even though the point coordinates are present. -/
theorem C9_missing_coords_skip_distance_witness :
    ((none : Option ℝ) = none ∨ (some (130.42 : ℝ)) = none) ∧
    distanceFields none (some (130.42 : ℝ))
        (some (33.59 : ℝ)) (some (33.60 : ℝ)) = (none, none) :=
  ⟨Or.inl rfl,
   (C9_missing_coords_skip_distance.1 none (some 130.42)
       (some 33.59) (some 33.60)).2 (Or.inl rfl)⟩

/-- C10: the haversine distance of a coordinate pair to itself is zero
metres (and zero kilometres), in particular at the spec's example
coordinates, and the function is symmetric in its two coordinate pairs. -/
theorem C10_haversine_zero_and_symmetric :
    haversine_distance 33.5902 130.4200 33.5902 130.4200 = (0, 0) ∧
    ∀ a1 b1 a2 b2 : ℝ,
      haversine_distance a1 b1 a2 b2 = haversine_distance a2 b2 a1 b1 :=
  ⟨haversine_self _ _, haversine_symm⟩

end Rokesuma
